import Mathlib

/-!
Verification of the SlitherScale measurement session.

The repository is a SvelteKit single-page app that lets a user calibrate a
pixel-to-real-world scale from two clicked reference points plus a typed
reference length, then measure the cumulative length of a clicked path.
The core logic lives in the measurement component (`Measurer.svelte`, whose
current revision uses Svelte 5 runes with `$derived` values); the canvas
rendering, file loading and styling are presentation plumbing and are not
modelled.

Numbers: JavaScript numbers are idealised as real numbers, except at a zero
divisor, where IEEE division yields a signed infinity; `JSNum` keeps that
distinction so that the unguarded `referenceLength / distance` quotient is
modelled faithfully.  `toFixed(2)` is idealised as rounding to hundredths.
-/

namespace SlitherScale

/-- A canvas-space point, `{x: number, y: number}` in the source. -/
@[ext]
structure Point where
  x : ℝ
  y : ℝ

/-- `type PathType = "reference" | "measurement"` — the session mode. -/
inductive PathType where
  | reference
  | measurement
deriving DecidableEq

/-- `type Unit = "in" | "cm" | "mm" | "fur"`.  The source key `in` is a Lean
keyword, so the constructor is named `inch`. -/
inductive Unit where
  | inch
  | cm
  | mm
  | fur
deriving DecidableEq

/-- `UNIT_LABELS`: the fixed display label of each unit. -/
def UNIT_LABELS : Unit → String
  | .inch => "inches"
  | .cm => "centimeters"
  | .mm => "millimeters"
  | .fur => "furlongs"

/-- The value of a JavaScript number expression: a finite real, a signed
infinity, or NaN.  Finite arithmetic is idealised as exact real arithmetic;
the infinities arise only from division by a zero pixel distance. -/
inductive JSNum where
  | fin (r : ℝ)
  | posInf
  | negInf
  | nan

/-- JavaScript truthiness of a number: `0` and `NaN` are falsy, every other
number (infinities included) is truthy. -/
def jsTruthy : JSNum → Prop
  | .fin r => r ≠ 0
  | .posInf => True
  | .negInf => True
  | .nan => False

noncomputable instance : DecidablePred jsTruthy := fun n =>
  match n with
  | .fin r => inferInstanceAs (Decidable (r ≠ 0))
  | .posInf => inferInstanceAs (Decidable True)
  | .negInf => inferInstanceAs (Decidable True)
  | .nan => inferInstanceAs (Decidable False)

/-- JavaScript division `a / b` of finite numbers: IEEE signed infinity (or
NaN for `0/0`) at a zero divisor, exact division otherwise.  (The divisor in
the source is a `Math.hypot` sum, so it is never `-0`.) -/
noncomputable def jsDiv (a b : ℝ) : JSNum :=
  if b = 0 then
    if 0 < a then .posInf else if a < 0 then .negInf else .nan
  else .fin (a / b)

/-- JavaScript multiplication `a * x` of a finite number by a possibly
infinite one. -/
noncomputable def jsMul (a : ℝ) : JSNum → JSNum
  | .fin r => .fin (a * r)
  | .posInf => if 0 < a then .posInf else if a < 0 then .negInf else .nan
  | .negInf => if 0 < a then .negInf else if a < 0 then .posInf else .nan
  | .nan => .nan

/-- `x.toFixed(2)` idealised: a finite value is rounded to hundredths;
`Infinity.toFixed(2)` and `NaN.toFixed(2)` render the value unchanged. -/
noncomputable def toFixed2 : JSNum → JSNum
  | .fin r => .fin ((round (r * 100) : ℤ) / 100)
  | x => x

/-- `Math.hypot(dx, dy)` — plane Euclidean norm. -/
noncomputable def hypot (dx dy : ℝ) : ℝ := Real.sqrt (dx ^ 2 + dy ^ 2)

/-- `calculateTotalDistance(points)`:
`points.slice(1).reduce((total, p, i) => total + Math.hypot(p.x - points[i].x, p.y - points[i].y), 0)`.
The fold runs over the pairs (next point, previous point). -/
noncomputable def calculateTotalDistance (points : List Point) : ℝ :=
  (points.tail.zip points).foldl
    (fun total pq => total + hypot (pq.1.x - pq.2.x) (pq.1.y - pq.2.y)) 0

/-- The session state: the component's `$state` variables that the
measurement logic reads and writes. -/
structure Session where
  currentPathType : PathType
  currentUnit : Unit
  referencePoints : List Point
  measurementPoints : List Point
  referenceLength : Option ℝ

/-- The `$state` initialisers: reference mode, unit `in`, empty point lists,
no reference length. -/
def initialSession : Session :=
  { currentPathType := .reference
    currentUnit := .inch
    referencePoints := []
    measurementPoints := []
    referenceLength := none }

/-- The user-visible alert of the error taxonomy raised by a click
(`alert("First, you must supply a reference length.")`). -/
inductive SessionAlert where
  | missingCalibrationInput
deriving DecidableEq

/-- `scaleFactor`, a `$derived` value:
`referencePoints.length == 2 && referenceLength ? referenceLength / calculateTotalDistance(referencePoints) : null`.
`referenceLength` is truthy when present and nonzero. -/
noncomputable def scaleFactor (s : Session) : Option JSNum :=
  match s.referenceLength with
  | some len =>
      if s.referencePoints.length = 2 ∧ len ≠ 0 then
        some (jsDiv len (calculateTotalDistance s.referencePoints))
      else none
  | none => none

/-- `currentMeasurementValue`, a `$derived` value:
`scaleFactor && measurementPoints.length > 1 ? (calculateTotalDistance(measurementPoints) * scaleFactor).toFixed(2) : null`. -/
noncomputable def currentMeasurementValue (s : Session) : Option JSNum :=
  match scaleFactor s with
  | some sf =>
      if jsTruthy sf ∧ 1 < s.measurementPoints.length then
        some (toFixed2 (jsMul (calculateTotalDistance s.measurementPoints) sf))
      else none
  | none => none

/-- `handleReferencePoint(x, y)`: ignored once two reference points exist;
alert and discard when the reference length is unset (falsy); otherwise the
point is appended, and on reaching exactly two points the mode transitions
to measurement.  (Drawing calls are presentation and are not modelled.) -/
noncomputable def handleReferencePoint (s : Session) (x y : ℝ) :
    Session × Option SessionAlert :=
  if 2 ≤ s.referencePoints.length then (s, none)
  else
    match s.referenceLength with
    | none => (s, some .missingCalibrationInput)
    | some len =>
        if len = 0 then (s, some .missingCalibrationInput)
        else
          let pts := s.referencePoints ++ [⟨x, y⟩]
          if pts.length = 2 then
            ({ s with referencePoints := pts, currentPathType := .measurement }, none)
          else
            ({ s with referencePoints := pts }, none)

/-- `handleMeasurementPoint(x, y)`: ignored when `scaleFactor` is falsy,
otherwise the point is appended to the measurement path. -/
noncomputable def handleMeasurementPoint (s : Session) (x y : ℝ) : Session :=
  match scaleFactor s with
  | none => s
  | some sf =>
      if jsTruthy sf then
        { s with measurementPoints := s.measurementPoints ++ [⟨x, y⟩] }
      else s

/-- The click operation (the spec's `recordClick`): the mode dispatch at the
end of `handleCanvasClick`, after the out-of-scope image-loaded and
tap-vs-pan guards.  A measurement-mode click never alerts. -/
noncomputable def recordClick (s : Session) (x y : ℝ) :
    Session × Option SessionAlert :=
  match s.currentPathType with
  | .reference => handleReferencePoint s x y
  | .measurement => (handleMeasurementPoint s x y, none)

/-- `clearCanvas()` (the spec's `reset()`): clears both point lists, resets
the mode to reference and the reference length to null.  The source does not
touch `currentUnit`. -/
def clearCanvas (s : Session) : Session :=
  { s with
      referencePoints := []
      measurementPoints := []
      currentPathType := .reference
      referenceLength := none }

/-- The session's input events: a canvas click, an edit of the bound
reference-length input (`bind:value={referenceLength}`, null when cleared),
a unit-button press (`onclick={() => (currentUnit = unit)}`), and the reset
button (`onclick={clearCanvas}`). -/
inductive Event where
  | click (x y : ℝ)
  | setReferenceLength (v : Option ℝ)
  | setUnit (u : Unit)
  | reset

/-- One event step of the session. -/
noncomputable def applyEvent (s : Session) (e : Event) : Session :=
  match e with
  | .click x y => (recordClick s x y).1
  | .setReferenceLength v => { s with referenceLength := v }
  | .setUnit u => { s with currentUnit := u }
  | .reset => clearCanvas s

/-- States reachable from the initial session by input events. -/
inductive Reachable : Session → Prop where
  | init : Reachable initialSession
  | step {s : Session} (e : Event) : Reachable s → Reachable (applyEvent s e)

/-- The value the "Total Length" panel of the template renders: either the
formatted measurement with its unit label, or one of the three informational
states. -/
inductive Display where
  | measured (value : JSNum) (label : String)
  | setReferenceLength
  | addReferencePoints
  | addMeasurementPoints

/-- The spec's `currentMeasurement()`: the template
`{#if currentMeasurementValue} {currentMeasurementValue} {UNIT_LABELS[currentUnit]} {:else}
{referenceLength ? (referencePoints.length < 2 ? "Add reference points" : "Add measurement points") : "Set the reference length"}`. -/
noncomputable def currentMeasurement (s : Session) : Display :=
  match currentMeasurementValue s with
  | some v => .measured v (UNIT_LABELS s.currentUnit)
  | none =>
      match s.referenceLength with
      | some len =>
          if len ≠ 0 then
            if s.referencePoints.length < 2 then .addReferencePoints
            else .addMeasurementPoints
          else .setReferenceLength
      | none => .setReferenceLength

/-- The mode/point-count invariant the click handlers maintain: at most one
reference point while in reference mode, exactly two once the mode has
switched to measurement. -/
def modeInvariant (s : Session) : Prop :=
  (s.currentPathType = .reference → s.referencePoints.length ≤ 1) ∧
  (s.currentPathType = .measurement → s.referencePoints.length = 2)

/-! ## The spec-side distance function (for the refinement claim C8) -/

/-- Plane Euclidean distance `sqrt(dx² + dy²)` between two points
(`calculateDistance` of the earlier revisions, and the algorithm note of the
spec). -/
noncomputable def euclideanDistance (p q : Point) : ℝ :=
  Real.sqrt ((q.x - p.x) ^ 2 + (q.y - p.y) ^ 2)

/-- Stated from the spec's words: the sum of the Euclidean distances between
consecutive points, zero for fewer than two points. -/
noncomputable def sumConsecutiveDistances : List Point → ℝ
  | p :: q :: rest => euclideanDistance p q + sumConsecutiveDistances (q :: rest)
  | _ => 0

/-! ## Helper lemmas -/

lemma euclideanDistance_nonneg (p q : Point) : 0 ≤ euclideanDistance p q :=
  Real.sqrt_nonneg _

lemma euclideanDistance_eq_zero_iff (p q : Point) :
    euclideanDistance p q = 0 ↔ p = q := by
  unfold euclideanDistance
  rw [Real.sqrt_eq_zero']
  constructor
  · intro h
    have hx : (q.x - p.x) ^ 2 = 0 := by nlinarith [sq_nonneg (q.x - p.x), sq_nonneg (q.y - p.y)]
    have hy : (q.y - p.y) ^ 2 = 0 := by nlinarith [sq_nonneg (q.x - p.x), sq_nonneg (q.y - p.y)]
    have hx' : q.x = p.x := by nlinarith [hx]
    have hy' : q.y = p.y := by nlinarith [hy]
    ext
    · linarith
    · linarith
  · rintro rfl
    simp

lemma sumConsecutiveDistances_nonneg (points : List Point) :
    0 ≤ sumConsecutiveDistances points := by
  induction points with
  | nil => simp [sumConsecutiveDistances]
  | cons p rest ih =>
      cases rest with
      | nil => simp [sumConsecutiveDistances]
      | cons q rest' =>
          have := euclideanDistance_nonneg p q
          unfold sumConsecutiveDistances
          have ih' : 0 ≤ sumConsecutiveDistances (q :: rest') := ih
          linarith

/-- Folding the segment lengths from accumulator `a` equals `a` plus the fold
from `0`. -/
lemma foldl_seg_shift (l : List (Point × Point)) (a : ℝ) :
    l.foldl (fun total pq => total + hypot (pq.1.x - pq.2.x) (pq.1.y - pq.2.y)) a =
      a + l.foldl (fun total pq => total + hypot (pq.1.x - pq.2.x) (pq.1.y - pq.2.y)) 0 := by
  induction l generalizing a with
  | nil => simp
  | cons hd tl ih =>
      simp only [List.foldl_cons]
      rw [ih (a + hypot (hd.1.x - hd.2.x) (hd.1.y - hd.2.y)),
        ih (0 + hypot (hd.1.x - hd.2.x) (hd.1.y - hd.2.y))]
      ring

lemma hypot_eq_euclideanDistance (p q : Point) :
    hypot (q.x - p.x) (q.y - p.y) = euclideanDistance p q := rfl

/-- Unfolding the source fold one segment at a time. -/
lemma calculateTotalDistance_cons_cons (p q : Point) (rest : List Point) :
    calculateTotalDistance (p :: q :: rest) =
      euclideanDistance p q + calculateTotalDistance (q :: rest) := by
  unfold calculateTotalDistance
  simp only [List.tail_cons, List.zip_cons_cons, List.foldl_cons]
  rw [foldl_seg_shift, zero_add, hypot_eq_euclideanDistance]

/-- The source fold computes exactly the sum of consecutive Euclidean
distances. -/
lemma calculateTotalDistance_eq_sum (points : List Point) :
    calculateTotalDistance points = sumConsecutiveDistances points := by
  induction points with
  | nil => simp [calculateTotalDistance, sumConsecutiveDistances]
  | cons p rest ih =>
      cases rest with
      | nil => simp [calculateTotalDistance, sumConsecutiveDistances]
      | cons q rest' =>
          unfold sumConsecutiveDistances
          rw [calculateTotalDistance_cons_cons, ih]

lemma calculateTotalDistance_nonneg (points : List Point) :
    0 ≤ calculateTotalDistance points := by
  rw [calculateTotalDistance_eq_sum]
  exact sumConsecutiveDistances_nonneg points

lemma calculateTotalDistance_short (points : List Point)
    (h : points.length < 2) : calculateTotalDistance points = 0 := by
  rw [calculateTotalDistance_eq_sum]
  match points, h with
  | [], _ => rfl
  | [p], _ => rfl

lemma calculateTotalDistance_pair (a b : Point) :
    calculateTotalDistance [a, b] = euclideanDistance a b := by
  rw [calculateTotalDistance_eq_sum]
  unfold sumConsecutiveDistances
  simp [sumConsecutiveDistances]

/-- A defined scale factor is always truthy: the reference length is nonzero
and the pixel distance is nonnegative, so the quotient is a nonzero real or a
signed infinity, never `0` or `NaN`. -/
lemma jsTruthy_of_scaleFactor {s : Session} {sf : JSNum}
    (h : scaleFactor s = some sf) : jsTruthy sf := by
  unfold scaleFactor at h
  split at h
  next len hlen =>
    split at h
    next hc =>
      have hsf : sf = jsDiv len (calculateTotalDistance s.referencePoints) := by
        injection h with h'
        exact h'.symm
      subst hsf
      unfold jsDiv
      by_cases hd : calculateTotalDistance s.referencePoints = 0
      · rw [if_pos hd]
        rcases lt_or_gt_of_ne hc.2 with hneg | hpos
        · rw [if_neg (by linarith), if_pos hneg]
          trivial
        · rw [if_pos hpos]
          trivial
      · rw [if_neg hd]
        exact div_ne_zero hc.2 hd
    next hc => exact absurd h (by simp)
  next hlen => exact absurd h (by simp)

/-- The scale factor is defined exactly when two reference points exist and
the reference length is set and nonzero. -/
lemma scaleFactor_eq_none_iff (s : Session) :
    scaleFactor s = none ↔
      ¬(s.referencePoints.length = 2 ∧ ∃ len, s.referenceLength = some len ∧ len ≠ 0) := by
  unfold scaleFactor
  split
  next len hlen =>
    by_cases hc : s.referencePoints.length = 2 ∧ len ≠ 0
    · rw [if_pos hc]
      simp only [reduceCtorEq, false_iff, not_not]
      exact ⟨hc.1, len, hlen, hc.2⟩
    · rw [if_neg hc]
      simp only [true_iff]
      rintro ⟨h2, len', hlen', hne⟩
      rw [hlen] at hlen'
      injection hlen' with h'
      exact hc ⟨h2, h' ▸ hne⟩
  next hlen =>
    simp only [true_iff]
    rintro ⟨h2, len', hlen', hne⟩
    rw [hlen] at hlen'
    exact absurd hlen' (by simp)

/-! ## Step lemmas for the click handlers -/

lemma handleReferencePoint_full {s : Session} (h : 2 ≤ s.referencePoints.length)
    (x y : ℝ) : handleReferencePoint s x y = (s, none) := by
  unfold handleReferencePoint
  rw [if_pos h]

lemma handleReferencePoint_noLength {s : Session}
    (h : s.referencePoints.length < 2) (hlen : s.referenceLength = none)
    (x y : ℝ) :
    handleReferencePoint s x y = (s, some .missingCalibrationInput) := by
  unfold handleReferencePoint
  rw [if_neg (by omega)]
  simp only [hlen]

lemma handleReferencePoint_zeroLength {s : Session}
    (h : s.referencePoints.length < 2) (hlen : s.referenceLength = some 0)
    (x y : ℝ) :
    handleReferencePoint s x y = (s, some .missingCalibrationInput) := by
  unfold handleReferencePoint
  rw [if_neg (by omega)]
  simp only [hlen, if_pos rfl, if_true]

lemma handleReferencePoint_first {s : Session} {len : ℝ}
    (h0 : s.referencePoints.length = 0) (hlen : s.referenceLength = some len)
    (hne : len ≠ 0) (x y : ℝ) :
    handleReferencePoint s x y =
      ({ s with referencePoints := s.referencePoints ++ [⟨x, y⟩] }, none) := by
  unfold handleReferencePoint
  rw [if_neg (by omega)]
  simp only [hlen, if_neg hne, List.length_append, h0, List.length_cons,
    List.length_nil]
  norm_num

lemma handleReferencePoint_second {s : Session} {len : ℝ}
    (h1 : s.referencePoints.length = 1) (hlen : s.referenceLength = some len)
    (hne : len ≠ 0) (x y : ℝ) :
    handleReferencePoint s x y =
      ({ s with
          referencePoints := s.referencePoints ++ [⟨x, y⟩]
          currentPathType := .measurement }, none) := by
  unfold handleReferencePoint
  rw [if_neg (by omega)]
  simp only [hlen, if_neg hne, List.length_append, h1, List.length_cons,
    List.length_nil, if_true]

lemma handleMeasurementPoint_of_none {s : Session}
    (h : scaleFactor s = none) (x y : ℝ) : handleMeasurementPoint s x y = s := by
  unfold handleMeasurementPoint
  simp only [h]

lemma handleMeasurementPoint_append {s : Session} {sf : JSNum}
    (h : scaleFactor s = some sf) (x y : ℝ) :
    handleMeasurementPoint s x y =
      { s with measurementPoints := s.measurementPoints ++ [⟨x, y⟩] } := by
  unfold handleMeasurementPoint
  simp only [h, if_pos (jsTruthy_of_scaleFactor h)]

/-! ## Display helper lemmas -/

lemma currentMeasurementValue_cases (s : Session) :
    (∃ sf, scaleFactor s = some sf ∧ 1 < s.measurementPoints.length ∧
      currentMeasurementValue s =
        some (toFixed2 (jsMul (calculateTotalDistance s.measurementPoints) sf))) ∨
    (currentMeasurementValue s = none ∧
      (scaleFactor s = none ∨ s.measurementPoints.length ≤ 1)) := by
  unfold currentMeasurementValue
  split
  next sf hsf =>
    by_cases hlen : 1 < s.measurementPoints.length
    · exact Or.inl ⟨sf, hsf, hlen,
        by rw [if_pos ⟨jsTruthy_of_scaleFactor hsf, hlen⟩]⟩
    · exact Or.inr ⟨by rw [if_neg (fun hc => hlen hc.2)], Or.inr (by omega)⟩
  next hsf => exact Or.inr ⟨rfl, Or.inl hsf⟩

lemma currentMeasurement_of_some {s : Session} {v : JSNum}
    (h : currentMeasurementValue s = some v) :
    currentMeasurement s = .measured v (UNIT_LABELS s.currentUnit) := by
  unfold currentMeasurement
  simp only [h]

lemma currentMeasurement_of_none {s : Session}
    (h : currentMeasurementValue s = none) :
    currentMeasurement s = .setReferenceLength ∨
    currentMeasurement s = .addReferencePoints ∨
    currentMeasurement s = .addMeasurementPoints := by
  unfold currentMeasurement
  simp only [h]
  split
  next len hlen =>
    by_cases h0 : len ≠ 0
    · rw [if_pos h0]
      by_cases h2 : s.referencePoints.length < 2
      · exact Or.inr (Or.inl (by rw [if_pos h2]))
      · exact Or.inr (Or.inr (by rw [if_neg h2]))
    · exact Or.inl (by rw [if_neg h0])
  next hlen => exact Or.inl rfl

/-! ## The mode/point-count invariant -/

lemma modeInvariant_initial : modeInvariant initialSession := by
  constructor
  · intro _
    simp [initialSession]
  · intro h
    simp [initialSession] at h

lemma modeInvariant_applyEvent {s : Session} (h : modeInvariant s) (e : Event) :
    modeInvariant (applyEvent s e) := by
  cases e with
  | setReferenceLength v => exact h
  | setUnit u => exact h
  | reset =>
      constructor
      · intro _
        simp [applyEvent, clearCanvas]
      · intro hm
        simp [applyEvent, clearCanvas] at hm
  | click x y =>
      cases hmode : s.currentPathType with
      | measurement =>
          have happ : applyEvent s (.click x y) = handleMeasurementPoint s x y := by
            unfold applyEvent recordClick
            simp only [hmode]
          rcases hsf : scaleFactor s with _ | sf
          · rw [happ, handleMeasurementPoint_of_none hsf]
            exact h
          · rw [happ, handleMeasurementPoint_append hsf]
            exact h
      | reference =>
          have happ : applyEvent s (.click x y) = (handleReferencePoint s x y).1 := by
            unfold applyEvent recordClick
            simp only [hmode]
          have hle : s.referencePoints.length ≤ 1 := h.1 hmode
          rcases hl : s.referenceLength with _ | L
          · rw [happ, handleReferencePoint_noLength (by omega) hl x y]
            exact h
          · by_cases hL : L = 0
            · subst hL
              rw [happ, handleReferencePoint_zeroLength (by omega) hl x y]
              exact h
            · by_cases h0 : s.referencePoints.length = 0
              · rw [happ, handleReferencePoint_first h0 hl hL x y]
                constructor
                · intro _
                  simp [List.length_append, h0]
                · intro hm
                  simp only at hm
                  rw [hmode] at hm
                  exact absurd hm (by simp)
              · have h1 : s.referencePoints.length = 1 := by omega
                rw [happ, handleReferencePoint_second h1 hl hL x y]
                constructor
                · intro hm
                  simp at hm
                · intro _
                  simp [List.length_append, h1]

lemma modeInvariant_of_reachable {s : Session} (h : Reachable s) :
    modeInvariant s := by
  induction h with
  | init => exact modeInvariant_initial
  | step e _ ih => exact modeInvariant_applyEvent ih e

lemma reachable_foldl (events : List Event) {s : Session} (h : Reachable s) :
    Reachable (List.foldl applyEvent s events) := by
  induction events generalizing s with
  | nil => exact h
  | cons e rest ih => exact ih (Reachable.step e h)

/-! ## Concrete sessions used as witnesses and counterexamples -/

lemma dist_coincident :
    calculateTotalDistance [(⟨10, 10⟩ : Point), ⟨10, 10⟩] = 0 := by
  rw [calculateTotalDistance_pair]
  unfold euclideanDistance
  norm_num

lemma dist_34_pos :
    0 < calculateTotalDistance [(⟨0, 0⟩ : Point), ⟨3, 4⟩] := by
  rw [calculateTotalDistance_pair]
  unfold euclideanDistance
  apply Real.sqrt_pos.mpr
  norm_num

/-- Entering length 5 then clicking (0,0) and (3,4) calibrates the session
and switches it to measurement mode. -/
lemma calib_state :
    List.foldl applyEvent initialSession
      [.setReferenceLength (some 5), .click 0 0, .click 3 4] =
      { currentPathType := .measurement, currentUnit := .inch,
        referencePoints := [⟨0, 0⟩, ⟨3, 4⟩], measurementPoints := [],
        referenceLength := some 5 } := by
  have h1 : applyEvent initialSession (.setReferenceLength (some 5)) =
      { currentPathType := .reference, currentUnit := .inch,
        referencePoints := [], measurementPoints := [],
        referenceLength := some 5 } := rfl
  have h2 : applyEvent
      { currentPathType := .reference, currentUnit := .inch,
        referencePoints := [], measurementPoints := [],
        referenceLength := some (5 : ℝ) } (.click 0 0) =
      { currentPathType := .reference, currentUnit := .inch,
        referencePoints := [⟨0, 0⟩], measurementPoints := [],
        referenceLength := some 5 } := by
    show (handleReferencePoint _ 0 0).1 = _
    rw [handleReferencePoint_first
      (s := { currentPathType := .reference, currentUnit := .inch,
              referencePoints := [], measurementPoints := [],
              referenceLength := some (5 : ℝ) }) rfl rfl (by norm_num)]
    rfl
  have h3 : applyEvent
      { currentPathType := .reference, currentUnit := .inch,
        referencePoints := [⟨0, 0⟩], measurementPoints := [],
        referenceLength := some (5 : ℝ) } (.click 3 4) =
      { currentPathType := .measurement, currentUnit := .inch,
        referencePoints := [⟨0, 0⟩, ⟨3, 4⟩], measurementPoints := [],
        referenceLength := some 5 } := by
    show (handleReferencePoint _ 3 4).1 = _
    rw [handleReferencePoint_second
      (s := { currentPathType := .reference, currentUnit := .inch,
              referencePoints := [⟨0, 0⟩], measurementPoints := [],
              referenceLength := some (5 : ℝ) }) rfl rfl (by norm_num)]
    rfl
  simp only [List.foldl_cons, List.foldl_nil, h1, h2, h3]

/-- Entering length 5 then clicking (10,10) twice records two coincident
reference points and still switches the session to measurement mode. -/
lemma calib_coincident_state :
    List.foldl applyEvent initialSession
      [.setReferenceLength (some 5), .click 10 10, .click 10 10] =
      { currentPathType := .measurement, currentUnit := .inch,
        referencePoints := [⟨10, 10⟩, ⟨10, 10⟩], measurementPoints := [],
        referenceLength := some 5 } := by
  have h1 : applyEvent initialSession (.setReferenceLength (some 5)) =
      { currentPathType := .reference, currentUnit := .inch,
        referencePoints := [], measurementPoints := [],
        referenceLength := some 5 } := rfl
  have h2 : applyEvent
      { currentPathType := .reference, currentUnit := .inch,
        referencePoints := [], measurementPoints := [],
        referenceLength := some (5 : ℝ) } (.click 10 10) =
      { currentPathType := .reference, currentUnit := .inch,
        referencePoints := [⟨10, 10⟩], measurementPoints := [],
        referenceLength := some 5 } := by
    show (handleReferencePoint _ 10 10).1 = _
    rw [handleReferencePoint_first
      (s := { currentPathType := .reference, currentUnit := .inch,
              referencePoints := [], measurementPoints := [],
              referenceLength := some (5 : ℝ) }) rfl rfl (by norm_num)]
    rfl
  have h3 : applyEvent
      { currentPathType := .reference, currentUnit := .inch,
        referencePoints := [⟨10, 10⟩], measurementPoints := [],
        referenceLength := some (5 : ℝ) } (.click 10 10) =
      { currentPathType := .measurement, currentUnit := .inch,
        referencePoints := [⟨10, 10⟩, ⟨10, 10⟩], measurementPoints := [],
        referenceLength := some 5 } := by
    show (handleReferencePoint _ 10 10).1 = _
    rw [handleReferencePoint_second
      (s := { currentPathType := .reference, currentUnit := .inch,
              referencePoints := [⟨10, 10⟩], measurementPoints := [],
              referenceLength := some (5 : ℝ) }) rfl rfl (by norm_num)]
    rfl
  simp only [List.foldl_cons, List.foldl_nil, h1, h2, h3]

/-- The scale factor of the coincident calibration: the unguarded quotient
`5 / 0`, which JavaScript evaluates to `Infinity`. -/
lemma scaleFactor_coincident (ms : List Point) :
    scaleFactor
      { currentPathType := .measurement, currentUnit := .inch,
        referencePoints := [⟨10, 10⟩, ⟨10, 10⟩], measurementPoints := ms,
        referenceLength := some 5 } = some .posInf := by
  unfold scaleFactor
  simp only
  rw [if_pos ⟨rfl, by norm_num⟩, dist_coincident]
  unfold jsDiv
  rw [if_pos rfl, if_pos (by norm_num)]

/-! ## The claims -/

/-- C8: for every ordered sequence of measurement points,
`calculateTotalDistance` equals the sum of the Euclidean distances
`sqrt(dx² + dy²)` between consecutive points, and for fewer than two points
it is zero. -/
theorem C8_totalPixelLength (points : List Point) :
    calculateTotalDistance points = sumConsecutiveDistances points ∧
      (points.length < 2 → calculateTotalDistance points = 0) :=
  ⟨calculateTotalDistance_eq_sum points, calculateTotalDistance_short points⟩

/-- C2: in any session state holding reference points `[A, B]` with `A ≠ B`
and a positive reference length `L` — however that state was produced — the
derived scale factor equals `L / euclideanDistance A B`. -/
theorem C2_scaleFactor_formula (s : Session) (A B : Point) (L : ℝ)
    (hpts : s.referencePoints = [A, B]) (hlen : s.referenceLength = some L)
    (hL : 0 < L) (hAB : A ≠ B) :
    scaleFactor s = some (.fin (L / euclideanDistance A B)) := by
  have hdist : euclideanDistance A B ≠ 0 := fun h =>
    hAB ((euclideanDistance_eq_zero_iff A B).mp h)
  unfold scaleFactor
  simp only [hlen]
  rw [if_pos ⟨by rw [hpts]; rfl, ne_of_gt hL⟩, hpts,
    calculateTotalDistance_pair]
  unfold jsDiv
  rw [if_neg hdist]

theorem C2_scaleFactor_formula_witness :
    scaleFactor
      { currentPathType := .measurement, currentUnit := .inch,
        referencePoints := [⟨0, 0⟩, ⟨3, 4⟩], measurementPoints := [],
        referenceLength := some 5 } =
      some (.fin (5 / euclideanDistance ⟨0, 0⟩ ⟨3, 4⟩)) :=
  C2_scaleFactor_formula _ ⟨0, 0⟩ ⟨3, 4⟩ 5 rfl rfl (by norm_num)
    (by norm_num [Point.mk.injEq])

/-- C3: a click dispatched in reference mode while fewer than two reference
points exist and the reference length is unset raises the
MissingCalibrationInput alert and leaves the session state unchanged. -/
theorem C3_missingCalibration (s : Session) (x y : ℝ)
    (hmode : s.currentPathType = .reference)
    (hcount : s.referencePoints.length < 2)
    (hlen : s.referenceLength = none) :
    recordClick s x y = (s, some .missingCalibrationInput) := by
  unfold recordClick
  simp only [hmode]
  exact handleReferencePoint_noLength hcount hlen x y

theorem C3_missingCalibration_witness :
    recordClick initialSession 1 2 =
      (initialSession, some .missingCalibrationInput) :=
  C3_missingCalibration initialSession 1 2 rfl (by norm_num [initialSession]) rfl

/-- C6: in reference mode with a (truthy) reference length set, a click on
fewer than two points appends the point; the click that brings the count to
two also switches the mode to measurement and leaves the scale factor
defined; and a reference-mode click with two points already recorded changes
nothing and raises no alert. -/
theorem C6_referenceClicks (s : Session) (x y L : ℝ)
    (hmode : s.currentPathType = .reference)
    (hlen : s.referenceLength = some L) (hL : L ≠ 0) :
    (s.referencePoints.length = 0 →
      recordClick s x y =
        ({ s with referencePoints := s.referencePoints ++ [⟨x, y⟩] }, none)) ∧
    (s.referencePoints.length = 1 →
      recordClick s x y =
        ({ s with
            referencePoints := s.referencePoints ++ [⟨x, y⟩]
            currentPathType := .measurement }, none) ∧
      scaleFactor
        { s with
            referencePoints := s.referencePoints ++ [⟨x, y⟩]
            currentPathType := .measurement } ≠ none) ∧
    (2 ≤ s.referencePoints.length → recordClick s x y = (s, none)) := by
  have hdisp : recordClick s x y = handleReferencePoint s x y := by
    unfold recordClick
    simp only [hmode]
  refine ⟨?_, ?_, ?_⟩
  · intro h0
    rw [hdisp, handleReferencePoint_first h0 hlen hL x y]
  · intro h1
    refine ⟨by rw [hdisp, handleReferencePoint_second h1 hlen hL x y], ?_⟩
    intro hno
    rw [scaleFactor_eq_none_iff] at hno
    exact hno ⟨by simp [List.length_append, h1], L, hlen, hL⟩
  · intro h2
    rw [hdisp, handleReferencePoint_full h2 x y]

/-- C7: the display shows the measured value (the 2-decimal `toFixed`
formatting of pixel length times scale factor, with the unit label) exactly
when the scale factor is defined and the measurement path has at least two
points; in every other state it is one of the three informational values. -/
theorem C7_display (s : Session) :
    ((∃ sf, scaleFactor s = some sf ∧
        currentMeasurement s =
          .measured
            (toFixed2 (jsMul (calculateTotalDistance s.measurementPoints) sf))
            (UNIT_LABELS s.currentUnit)) ↔
      scaleFactor s ≠ none ∧ 2 ≤ s.measurementPoints.length) ∧
    (¬(scaleFactor s ≠ none ∧ 2 ≤ s.measurementPoints.length) →
      currentMeasurement s = .setReferenceLength ∨
      currentMeasurement s = .addReferencePoints ∨
      currentMeasurement s = .addMeasurementPoints) := by
  rcases currentMeasurementValue_cases s with ⟨sf, hsf, hlen, hval⟩ | ⟨hval, hcase⟩
  · constructor
    · constructor
      · rintro ⟨sf', hsf', hdisp⟩
        exact ⟨by rw [hsf]; simp, by omega⟩
      · intro _
        exact ⟨sf, hsf, currentMeasurement_of_some hval⟩
    · intro hc
      exact absurd ⟨by rw [hsf]; simp, by omega⟩ hc
  · have hinfo := currentMeasurement_of_none hval
    constructor
    · constructor
      · rintro ⟨sf, hsf, hdisp⟩
        rcases hinfo with h | h | h <;> rw [h] at hdisp <;>
          exact absurd hdisp (by simp)
      · rintro ⟨hne, hlen2⟩
        rcases hcase with h | h
        · exact absurd h hne
        · exact absurd hlen2 (by omega)
    · intro _
      exact hinfo

/-- C1: editing the reference length of a calibrated session (two reference
points recorded) immediately yields the scale factor and measured value
recomputed from the current point lists and the new length — the derived
values are pure functions of the current state, never a stale cache. -/
theorem C1_lengthEditRescales (s : Session) (L : ℝ)
    (hpts : s.referencePoints.length = 2) (hL : L ≠ 0) :
    scaleFactor (applyEvent s (.setReferenceLength (some L))) =
      some (jsDiv L (calculateTotalDistance s.referencePoints)) ∧
    (1 < s.measurementPoints.length →
      currentMeasurementValue (applyEvent s (.setReferenceLength (some L))) =
        some (toFixed2 (jsMul (calculateTotalDistance s.measurementPoints)
          (jsDiv L (calculateTotalDistance s.referencePoints))))) := by
  have hsf : scaleFactor (applyEvent s (.setReferenceLength (some L))) =
      some (jsDiv L (calculateTotalDistance s.referencePoints)) := by
    unfold applyEvent scaleFactor
    simp only
    rw [if_pos ⟨hpts, hL⟩]
  refine ⟨hsf, ?_⟩
  intro hm
  unfold currentMeasurementValue
  simp only [hsf]
  rw [if_pos ⟨jsTruthy_of_scaleFactor hsf, hm⟩]
  rfl

theorem C1_lengthEditRescales_witness :
    (let s : Session :=
      { currentPathType := .measurement, currentUnit := .inch,
        referencePoints := [⟨0, 0⟩, ⟨3, 4⟩],
        measurementPoints := [⟨0, 0⟩, ⟨6, 8⟩],
        referenceLength := some 5 }
    scaleFactor (applyEvent s (.setReferenceLength (some 10))) =
      some (jsDiv 10 (calculateTotalDistance s.referencePoints)) ∧
    (1 < s.measurementPoints.length →
      currentMeasurementValue (applyEvent s (.setReferenceLength (some 10))) =
        some (toFixed2 (jsMul (calculateTotalDistance s.measurementPoints)
          (jsDiv 10 (calculateTotalDistance s.referencePoints)))))) :=
  C1_lengthEditRescales _ 10 rfl (by norm_num)

/-- C5 counterexample: reset does not restore the default unit `in` — after
switching to cm and resetting, the selected unit is still cm. -/
theorem C5_reset_counterexample :
    (applyEvent (applyEvent initialSession (.setUnit .cm)) .reset).currentUnit
        = Unit.cm ∧
      Unit.cm ≠ Unit.inch :=
  ⟨rfl, by decide⟩

/-- C5 amended: reset clears both point lists and the reference length,
returns the mode to reference and the display to SetReferenceLength, but
keeps the currently selected unit (it does not reset it to `in`). -/
theorem C5_reset_amended (s : Session) :
    (applyEvent s .reset).referencePoints = [] ∧
    (applyEvent s .reset).measurementPoints = [] ∧
    (applyEvent s .reset).referenceLength = none ∧
    (applyEvent s .reset).currentPathType = .reference ∧
    (applyEvent s .reset).currentUnit = s.currentUnit ∧
    currentMeasurement (applyEvent s .reset) = .setReferenceLength := by
  exact ⟨rfl, rfl, rfl, rfl, rfl, rfl⟩

theorem C6_referenceClicks_witness :
    (let s : Session :=
      { currentPathType := .reference, currentUnit := .inch,
        referencePoints := [⟨0, 0⟩], measurementPoints := [],
        referenceLength := some 5 }
    (s.referencePoints.length = 0 →
      recordClick s 3 4 =
        ({ s with referencePoints := s.referencePoints ++ [⟨3, 4⟩] }, none)) ∧
    (s.referencePoints.length = 1 →
      recordClick s 3 4 =
        ({ s with
            referencePoints := s.referencePoints ++ [⟨3, 4⟩]
            currentPathType := .measurement }, none) ∧
      scaleFactor
        { s with
            referencePoints := s.referencePoints ++ [⟨3, 4⟩]
            currentPathType := .measurement } ≠ none) ∧
    (2 ≤ s.referencePoints.length → recordClick s 3 4 = (s, none))) :=
  C6_referenceClicks _ 3 4 5 rfl rfl (by norm_num)

/-- C9 counterexample: a negative reference length (−5) is not ignored — in
a calibrated session it yields a defined (negative) scale factor, against
the claim that every non-positive value behaves like no length at all. -/
theorem C9_negativeLength_counterexample :
    (-5 : ℝ) ≤ 0 ∧
    scaleFactor (List.foldl applyEvent initialSession
      [.setReferenceLength (some 5), .click 0 0, .click 3 4,
       .setReferenceLength (some (-5))]) ≠ none := by
  refine ⟨by norm_num, ?_⟩
  have h : List.foldl applyEvent initialSession
      [.setReferenceLength (some 5), .click 0 0, .click 3 4,
       .setReferenceLength (some (-5))] =
      { currentPathType := .measurement, currentUnit := .inch,
        referencePoints := [⟨0, 0⟩, ⟨3, 4⟩], measurementPoints := [],
        referenceLength := some (-5) } := by
    rw [show ([.setReferenceLength (some 5), .click 0 0, .click 3 4,
          .setReferenceLength (some (-5))] : List Event) =
        [.setReferenceLength (some 5), .click 0 0, .click 3 4] ++
          [.setReferenceLength (some (-5))] from rfl,
      List.foldl_append, calib_state]
    rfl
  rw [h]
  unfold scaleFactor
  simp only
  rw [if_pos ⟨rfl, by norm_num⟩]
  simp

/-- C9 amended: a reference length of 0, or clearing the field, behaves as
no reference length at all — the scale factor and measured value stay
undefined and no alert is raised; a negative value, however, is accepted by
the code and produces a defined (negative) scale factor. -/
theorem C9_zeroLength_amended (s : Session) (v : Option ℝ)
    (hv : v = none ∨ v = some 0) :
    scaleFactor (applyEvent s (.setReferenceLength v)) = none ∧
    currentMeasurementValue (applyEvent s (.setReferenceLength v)) = none := by
  have hsf : scaleFactor (applyEvent s (.setReferenceLength v)) = none := by
    rw [scaleFactor_eq_none_iff]
    rintro ⟨h2, len, hlen, hne⟩
    rcases hv with rfl | rfl
    · exact absurd hlen (by simp [applyEvent])
    · simp only [applyEvent] at hlen
      injection hlen with h0
      exact hne h0.symm
  refine ⟨hsf, ?_⟩
  unfold currentMeasurementValue
  simp only [hsf]

theorem C9_zeroLength_amended_witness :
    scaleFactor (applyEvent initialSession (.setReferenceLength (some 0)))
        = none ∧
    currentMeasurementValue
        (applyEvent initialSession (.setReferenceLength (some 0))) = none :=
  C9_zeroLength_amended initialSession (some 0) (Or.inr rfl)

/-- C4 counterexample: the defensive measurement-mode guard is reachable —
calibrate with two points, then clear the reference length: the reachable
state has measurement mode with an undefined scale factor. -/
theorem C4_measurementGuard_counterexample :
    Reachable (List.foldl applyEvent initialSession
      [.setReferenceLength (some 5), .click 0 0, .click 3 4,
       .setReferenceLength none]) ∧
    (List.foldl applyEvent initialSession
      [.setReferenceLength (some 5), .click 0 0, .click 3 4,
       .setReferenceLength none]).currentPathType = .measurement ∧
    scaleFactor (List.foldl applyEvent initialSession
      [.setReferenceLength (some 5), .click 0 0, .click 3 4,
       .setReferenceLength none]) = none := by
  have h : List.foldl applyEvent initialSession
      [.setReferenceLength (some 5), .click 0 0, .click 3 4,
       .setReferenceLength none] =
      { currentPathType := .measurement, currentUnit := .inch,
        referencePoints := [⟨0, 0⟩, ⟨3, 4⟩], measurementPoints := [],
        referenceLength := none } := by
    rw [show ([.setReferenceLength (some 5), .click 0 0, .click 3 4,
          .setReferenceLength none] : List Event) =
        [.setReferenceLength (some 5), .click 0 0, .click 3 4] ++
          [.setReferenceLength none] from rfl,
      List.foldl_append, calib_state]
    rfl
  refine ⟨reachable_foldl _ Reachable.init, ?_, ?_⟩
  · rw [h]
  · rw [h]
    rfl

/-- C4 amended: in every reachable measurement-mode state exactly two
reference points exist, and the scale factor is undefined there exactly when
the reference length has been cleared or set to 0 — which a
post-calibration edit can do, so the defensive branch is reachable. -/
theorem C4_measurementMode_amended (s : Session) (hs : Reachable s)
    (hmode : s.currentPathType = .measurement) :
    s.referencePoints.length = 2 ∧
      (scaleFactor s = none ↔
        (s.referenceLength = none ∨ s.referenceLength = some 0)) := by
  have h2 := (modeInvariant_of_reachable hs).2 hmode
  refine ⟨h2, ?_⟩
  rw [scaleFactor_eq_none_iff]
  constructor
  · intro hno
    rcases hl : s.referenceLength with _ | L
    · exact Or.inl rfl
    · refine Or.inr ?_
      by_contra hne
      have hL : L ≠ 0 := fun h0 => hne (by rw [h0])
      exact hno ⟨h2, L, hl, hL⟩
  · rintro (h | h) ⟨_, len, hlen, hne⟩
    · rw [h] at hlen
      exact absurd hlen (by simp)
    · rw [h] at hlen
      injection hlen with h0
      exact hne h0.symm

theorem C4_measurementMode_amended_witness :
    (List.foldl applyEvent initialSession
      [.setReferenceLength (some 5), .click 0 0,
       .click 3 4]).referencePoints.length = 2 ∧
    (scaleFactor (List.foldl applyEvent initialSession
        [.setReferenceLength (some 5), .click 0 0, .click 3 4]) = none ↔
      ((List.foldl applyEvent initialSession
          [.setReferenceLength (some 5), .click 0 0,
           .click 3 4]).referenceLength = none ∨
       (List.foldl applyEvent initialSession
          [.setReferenceLength (some 5), .click 0 0,
           .click 3 4]).referenceLength = some 0)) :=
  C4_measurementMode_amended _ (reachable_foldl _ Reachable.init)
    (by rw [calib_state])

/-- C10: with the two recorded reference points coincident, the unguarded
quotient 5/0 evaluates to Infinity, the session still switches to
measurement mode, and subsequent measurement clicks are accepted: the
measured value is computed from that quotient (Infinity) instead of being
rejected as an error. -/
theorem C10_divisionByZero_unguarded :
    (List.foldl applyEvent initialSession
      [.setReferenceLength (some 5), .click 10 10,
       .click 10 10]).currentPathType = .measurement ∧
    scaleFactor (List.foldl applyEvent initialSession
      [.setReferenceLength (some 5), .click 10 10, .click 10 10]) =
      some .posInf ∧
    currentMeasurementValue (List.foldl applyEvent initialSession
      [.setReferenceLength (some 5), .click 10 10, .click 10 10,
       .click 0 0, .click 3 4]) = some .posInf := by
  have h4 : applyEvent
      { currentPathType := .measurement, currentUnit := .inch,
        referencePoints := [⟨10, 10⟩, ⟨10, 10⟩], measurementPoints := [],
        referenceLength := some (5 : ℝ) } (.click 0 0) =
      { currentPathType := .measurement, currentUnit := .inch,
        referencePoints := [⟨10, 10⟩, ⟨10, 10⟩],
        measurementPoints := [⟨0, 0⟩], referenceLength := some 5 } := by
    show handleMeasurementPoint _ 0 0 = _
    rw [handleMeasurementPoint_append (scaleFactor_coincident [])]
    rfl
  have h5 : applyEvent
      { currentPathType := .measurement, currentUnit := .inch,
        referencePoints := [⟨10, 10⟩, ⟨10, 10⟩],
        measurementPoints := [⟨0, 0⟩],
        referenceLength := some (5 : ℝ) } (.click 3 4) =
      { currentPathType := .measurement, currentUnit := .inch,
        referencePoints := [⟨10, 10⟩, ⟨10, 10⟩],
        measurementPoints := [⟨0, 0⟩, ⟨3, 4⟩],
        referenceLength := some 5 } := by
    show handleMeasurementPoint _ 3 4 = _
    rw [handleMeasurementPoint_append (scaleFactor_coincident [⟨0, 0⟩])]
    rfl
  have hval : currentMeasurementValue
      { currentPathType := .measurement, currentUnit := .inch,
        referencePoints := [⟨10, 10⟩, ⟨10, 10⟩],
        measurementPoints := [⟨0, 0⟩, ⟨3, 4⟩],
        referenceLength := some 5 } = some .posInf := by
    unfold currentMeasurementValue
    simp only [scaleFactor_coincident]
    rw [if_pos ⟨trivial, by norm_num⟩]
    unfold jsMul
    rw [if_pos dist_34_pos]
    rfl
  refine ⟨by rw [calib_coincident_state],
    by rw [calib_coincident_state]; exact scaleFactor_coincident [], ?_⟩
  rw [show ([.setReferenceLength (some 5), .click 10 10, .click 10 10,
        .click 0 0, .click 3 4] : List Event) =
      [.setReferenceLength (some 5), .click 10 10, .click 10 10] ++
        [.click 0 0, .click 3 4] from rfl,
    List.foldl_append, calib_coincident_state]
  simp only [List.foldl_cons, List.foldl_nil]
  rw [h4, h5]
  exact hval

end SlitherScale
